import Mathlib

/-!
Verification development for `sdbusplus/server/object.hpp`.

The header defines two components:

* `details::compose_impl` / `details::compose` — static composition of a
  variadic list of dbus interface classes, each constructed from the same
  `(bus, path)` pair, in list order, with C++ base-class rollback on a
  constructor failure (already-constructed bases are destroyed in reverse
  order before the exception propagates).

* `object<Args...>` — wraps the composed aggregate with the members
  `__sdbusplus_server_object_bus`, `__sdbusplus_server_object_path`,
  `__sdbusplus_server_object_emitremoved` (a `bool`, initially `false`),
  `__sdbusplus_server_object_intf` and `__action`, and drives the
  added/removed signaling protocol (`check_action`, `emit_object_added`,
  destructor).

We embed the code as trace-producing functions.  Interface modules are
identified by natural numbers; an `Env` is an oracle telling which module
constructors fail and whether the bus-layer emission calls
(`sd_bus_emit_object_added` / `sd_bus_emit_object_removed`, which return an
`int` status that `object.hpp` discards) succeed.  Every externally visible
step is recorded as an `Event`; theorems are stated over the traces.
-/

namespace SdbusObj

/-- The emission actions of `object::action`
(`EMIT_OBJECT_ADDED`, `EMIT_INTERFACE_ADDED`, `DEFER_EMIT`). -/
inductive Action where
  | EMIT_OBJECT_ADDED
  | EMIT_INTERFACE_ADDED
  | DEFER_EMIT
deriving DecidableEq, Repr

/-- Externally visible events produced by the composite object.

* `construct i bus path` — module `i`'s constructor ran (registering its
  vtable with the bus), having been passed exactly this `(bus, path)` pair;
* `destruct i` — module `i`'s destructor ran;
* `ifaceAdded i` — module `i`'s `emit_added()` broadcast its own
  interface-added notification (per the Interface Module contract);
* `objAdded bus path ok` — the bus call `sd_bus_emit_object_added` was made
  for `path` on `bus` and returned success iff `ok` (the caller in
  `object.hpp` discards this status);
* `objRemoved bus path ok` — likewise for `sd_bus_emit_object_removed`.

The `bus` of an emission event is `Option Nat`: `none` models a null
(moved-from) bus handle. -/
inductive Event where
  | construct (i : Nat) (bus : Nat) (path : String)
  | destruct (i : Nat)
  | ifaceAdded (i : Nat)
  | objAdded (bus : Option Nat) (path : String) (ok : Bool)
  | objRemoved (bus : Option Nat) (path : String) (ok : Bool)
deriving DecidableEq, Repr

/-- Oracle for the external collaborators: which interface-module
constructors fail (throw), and whether the whole-object added/removed bus
emissions succeed.  `object.hpp` never inspects the emission status. -/
structure Env where
  ctorFails : Nat → Bool
  addedOk : Bool
  removedOk : Bool

/-- Construction of `details::compose_impl<Args...>(bus, path)` for the
module list `mods` (and of `details::compose<>` for `mods = []`).
Each recursion step constructs the head module with the same `(bus, path)`
and then the tail; if the head's constructor throws, nothing was built and
the failure propagates; if the tail fails after the head succeeded, C++
destroys the already-constructed head base before propagating.  Returns the
event trace and `true` iff construction succeeded. -/
def compose_construct (env : Env) (bus : Nat) (path : String) :
    List Nat → List Event × Bool
  | [] => ([], true)
  | i :: rest =>
    if env.ctorFails i then
      ([], false)
    else
      match compose_construct env bus path rest with
      | (tr, true) => (Event.construct i bus path :: tr, true)
      | (tr, false) => (Event.construct i bus path :: (tr ++ [Event.destruct i]), false)

/-- Destruction of a successfully constructed `compose_impl<Args...>`:
C++ destroys base classes in reverse construction order, so the modules are
torn down in reverse list order. -/
def compose_destruct (mods : List Nat) : List Event :=
  mods.reverse.map Event.destruct

/-- State of a live `object<Args...>`: the members
`__sdbusplus_server_object_bus` (a possibly-null bus handle),
`__sdbusplus_server_object_path`, `__sdbusplus_server_object_emitremoved`
and `__action`.  (`__sdbusplus_server_object_intf` carries no state we
model.) -/
structure ObjectState where
  bus : Option Nat
  path : String
  emitremoved : Bool
  act : Action
deriving DecidableEq, Repr

/-- Embedding of `object::emit_object_added()`: if `__sdbusplus_server_object_emitremoved`
is still `false`, call `sd_bus_emit_object_added(bus, path)` — whose `int`
status is discarded — and then set the flag to `true` unconditionally;
otherwise do nothing.  Returns the new state and the emitted events. -/
def emit_object_added (env : Env) (s : ObjectState) : ObjectState × List Event :=
  if s.emitremoved then
    (s, [])
  else
    (⟨s.bus, s.path, true, s.act⟩, [Event.objAdded s.bus s.path env.addedOk])

/-- Embedding of `object::check_action()`: dispatch on `__action`.
`EMIT_OBJECT_ADDED` calls `emit_object_added()`; `EMIT_INTERFACE_ADDED`
runs the fold expression `(Args::emit_added(), ...)`, i.e. every module's
`emit_added()` in list order; `DEFER_EMIT` does nothing. -/
def check_action (env : Env) (mods : List Nat) (s : ObjectState) :
    ObjectState × List Event :=
  match s.act with
  | Action.EMIT_OBJECT_ADDED => emit_object_added env s
  | Action.EMIT_INTERFACE_ADDED => (s, mods.map Event.ifaceAdded)
  | Action.DEFER_EMIT => (s, [])

/-- The constructor `object(bus, path, act)`: first the base
`details::compose<Args...>(bus, path)` is constructed (on failure the
rollback trace is produced and the failure propagates — result `none`);
then the members are initialized (`emitremoved := false`, `__action := act`)
and the body calls `check_action()`. -/
def object_construct (env : Env) (mods : List Nat) (bus : Nat) (path : String)
    (act : Action) : Option ObjectState × List Event :=
  match compose_construct env bus path mods with
  | (tr, false) => (none, tr)
  | (tr, true) =>
    match check_action env mods ⟨some bus, path, false, act⟩ with
    | (s1, tr1) => (some s1, tr ++ tr1)

/-- The convenience constructor `object(bus, path, deferSignal)`:
`deferSignal = true` maps to `DEFER_EMIT`, otherwise `EMIT_OBJECT_ADDED`. -/
def object_construct_defer (env : Env) (mods : List Nat) (bus : Nat)
    (path : String) (deferSignal : Bool) : Option ObjectState × List Event :=
  object_construct env mods bus path
    (if deferSignal then Action.DEFER_EMIT else Action.EMIT_OBJECT_ADDED)

/-- Embedding of the destructor: the destructor body runs first — if
`__sdbusplus_server_object_emitremoved` is set, call
`sd_bus_emit_object_removed(bus, path)` (status again discarded) — and only
afterwards does C++ destroy the `compose` base, tearing the modules down in
reverse order. -/
def object_destruct (env : Env) (mods : List Nat) (s : ObjectState) : List Event :=
  (if s.emitremoved then [Event.objRemoved s.bus s.path env.removedOk] else [])
    ++ compose_destruct mods

/-- Embedding of `object(object&&) = default`: member-wise move.  The `bool` flag and the
`action` are trivially copyable, so the moved-from object keeps them; the
bus handle (`bus::bus`, holding a `unique_ptr`) and the `std::string` path
are transferred, leaving a null handle and an empty string behind.  Returns
(moved-to state, moved-from state). -/
def object_move_construct (s : ObjectState) : ObjectState × ObjectState :=
  (⟨s.bus, s.path, s.emitremoved, s.act⟩, ⟨none, "", s.emitremoved, s.act⟩)

/-- The special member operations declared at lines 84-88 of `object.hpp`. -/
inductive SpecialMember where
  | defaultCtor
  | copyCtor
  | copyAssign
  | moveCtor
  | moveAssign
deriving DecidableEq, Repr

/-- How each special member is declared at `object.hpp` lines 84-88:
`true` for `= default`, `false` for `= delete`
(`object() = delete; object(const object&) = delete;
object& operator=(const object&) = delete; object(object&&) = default;
object& operator=(object&&) = default;`). -/
def special_member_defaulted : SpecialMember → Bool
  | SpecialMember.defaultCtor => false
  | SpecialMember.copyCtor => false
  | SpecialMember.copyAssign => false
  | SpecialMember.moveCtor => true
  | SpecialMember.moveAssign => true

/-- The non-static data members of `object<Args...>` (`object.hpp` lines
163-167), each as (is `const`, is of class type):
`bus::bus __sdbusplus_server_object_bus` (class type),
`std::string __sdbusplus_server_object_path` (class type),
`bool __sdbusplus_server_object_emitremoved` (scalar),
`SdBusInterface* __sdbusplus_server_object_intf` (pointer, non-class),
`const action __action` (`const`, enum — non-class type). -/
def object_data_members : List (Bool × Bool) :=
  [(false, true), (false, true), (false, false), (false, false), (true, false)]

/-- Whether the class has a non-static data member of const non-class type.
Under C++ [class.copy.assign] p7.2 such a member defines a defaulted
copy/move assignment operator as deleted. -/
def has_const_nonclass_member : Bool :=
  object_data_members.any (fun m => m.1 && !m.2)

/-- Which special member operations are actually available to callers of
`object<Args...>`: a member declared `= delete` never is; an assignment
operator declared `= default` is nevertheless defined as deleted when the
class has a const non-class data member (C++ [class.copy.assign] p7.2 —
here `const action __action`, line 167); a defaulted move constructor is
not affected by that rule (the const scalar member is copy-initialized from
the source's). -/
def special_member_available (m : SpecialMember) : Bool :=
  special_member_defaulted m &&
    (match m with
     | SpecialMember.copyAssign => !has_const_nonclass_member
     | SpecialMember.moveAssign => !has_const_nonclass_member
     | _ => true)

/-- Runs `n` successive explicit calls to `emit_object_added()`. -/
def emit_calls (env : Env) : Nat → ObjectState → ObjectState × List Event
  | 0, s => (s, [])
  | n + 1, s =>
    match emit_object_added env s with
    | (s1, t1) =>
      match emit_calls env n s1 with
      | (s2, t2) => (s2, t1 ++ t2)

/-- A full lifecycle: construct with `act`, make `calls` explicit
`emit_object_added()` calls, destruct.  If construction fails only the
rollback trace is produced (the destructor never runs on a never-constructed
object). -/
def object_lifecycle (env : Env) (mods : List Nat) (bus : Nat) (path : String)
    (act : Action) (calls : Nat) : List Event :=
  match object_construct env mods bus path act with
  | (none, tr) => tr
  | (some s, tr) =>
    match emit_calls env calls s with
    | (s1, tr1) => tr ++ tr1 ++ object_destruct env mods s1

/-- Event classifiers used to count notifications. -/
def Event.isObjAdded : Event → Bool
  | Event.objAdded _ _ _ => true
  | _ => false

def Event.isObjRemoved : Event → Bool
  | Event.objRemoved _ _ _ => true
  | _ => false

def Event.isIfaceAdded : Event → Bool
  | Event.ifaceAdded _ => true
  | _ => false

/-- A successful whole-object added emission (bus call returned success). -/
def Event.isOkObjAdded : Event → Bool
  | Event.objAdded _ _ ok => ok
  | _ => false

/-- Any bus notification (as opposed to module construction/destruction). -/
def Event.isNotice (e : Event) : Bool :=
  e.isObjAdded || e.isObjRemoved || e.isIfaceAdded

def countObjAdded (tr : List Event) : Nat := tr.countP (fun e => e.isObjAdded)
def countObjRemoved (tr : List Event) : Nat := tr.countP (fun e => e.isObjRemoved)
def countIfaceAdded (tr : List Event) : Nat := tr.countP (fun e => e.isIfaceAdded)
def countNotice (tr : List Event) : Nat := tr.countP (fun e => e.isNotice)
def countOkObjAdded (tr : List Event) : Nat := tr.countP (fun e => e.isOkObjAdded)

/-- A concrete all-good environment for witnesses. -/
def envOK : Env := ⟨fun _ => false, true, true⟩

/-- An environment where the bus rejects the added emission but accepts the
removed emission, and no module constructor fails. -/
def envAddFails : Env := ⟨fun _ => false, false, true⟩

/-- An environment where exactly module `k`'s constructor fails. -/
def envCtorFailAt (k : Nat) : Env := ⟨fun i => i == k, true, true⟩

/-! ### Helper lemmas -/

theorem countP_map_eq_zero {α : Type} (f : α → Event) (p : Event → Bool)
    (hp : ∀ a, p (f a) = false) (l : List α) : (l.map f).countP p = 0 := by
  induction l with
  | nil => rfl
  | cons a l ih => simp [List.countP_cons, hp, ih]

theorem isObjAdded_notice (e : Event) (h : e.isObjAdded = true) :
    e.isNotice = true := by
  simp [Event.isNotice, h]

theorem isObjRemoved_notice (e : Event) (h : e.isObjRemoved = true) :
    e.isNotice = true := by
  simp [Event.isNotice, h]

theorem isIfaceAdded_notice (e : Event) (h : e.isIfaceAdded = true) :
    e.isNotice = true := by
  simp [Event.isNotice, h]

theorem countP_le_countNotice (p : Event → Bool)
    (hp : ∀ e, p e = true → e.isNotice = true) (tr : List Event) :
    tr.countP p ≤ countNotice tr := by
  exact List.countP_mono_left (fun e _ hpe => hp e hpe)

/-- Successful composition: with no failing constructor, `compose_impl`
constructs every module, in list order, passing every one the same
`(bus, path)`. -/
theorem compose_construct_ok (env : Env) (bus : Nat) (path : String) :
    ∀ mods : List Nat, (∀ i ∈ mods, env.ctorFails i = false) →
      compose_construct env bus path mods =
        (mods.map (fun i => Event.construct i bus path), true) := by
  intro mods
  induction mods with
  | nil => intro _; rfl
  | cons i rest ih =>
    intro h
    have hi : env.ctorFails i = false := h i (List.mem_cons_self i rest)
    have hrest := ih (fun j hj => h j (List.mem_cons_of_mem i hj))
    simp [compose_construct, hi, hrest]

/-- Failing composition: if every module before `k` constructs fine and `k`'s
constructor throws, the trace constructs the earlier modules in order, then
destructs them in reverse order, and composition fails. -/
theorem compose_construct_fail (env : Env) (bus : Nat) (path : String)
    (k : Nat) (hk : env.ctorFails k = true) (post : List Nat) :
    ∀ pre : List Nat, (∀ i ∈ pre, env.ctorFails i = false) →
      compose_construct env bus path (pre ++ k :: post) =
        (pre.map (fun i => Event.construct i bus path)
          ++ pre.reverse.map Event.destruct, false) := by
  intro pre
  induction pre with
  | nil => intro _; simp [compose_construct, hk]
  | cons a pre ih =>
    intro h
    have ha : env.ctorFails a = false := h a (List.mem_cons_self a pre)
    have hrest := ih (fun j hj => h j (List.mem_cons_of_mem a hj))
    simp [compose_construct, ha, hrest, List.append_assoc]

/-- Composition (whether it succeeds or rolls back) emits no notification of
any kind: its trace holds only module constructor/destructor events. -/
theorem compose_construct_countNotice (env : Env) (bus : Nat) (path : String) :
    ∀ mods : List Nat, countNotice (compose_construct env bus path mods).1 = 0 := by
  intro mods
  induction mods with
  | nil => rfl
  | cons i rest ih =>
    unfold compose_construct
    by_cases hf : env.ctorFails i
    · simp [hf, countNotice]
    · simp only [hf]
      rcases hrec : compose_construct env bus path rest with ⟨tr, b⟩
      rw [hrec] at ih
      cases b <;>
        simp_all [countNotice, List.countP_cons, List.countP_append,
          Event.isNotice, Event.isObjAdded, Event.isObjRemoved, Event.isIfaceAdded]

theorem compose_destruct_countNotice (mods : List Nat) :
    countNotice (compose_destruct mods) = 0 := by
  unfold compose_destruct countNotice
  exact countP_map_eq_zero _ _ (fun a => rfl) _

/-- Once the `emitremoved` flag is set, any number of further
`emit_object_added()` calls change nothing and emit nothing. -/
theorem emit_calls_done (env : Env) :
    ∀ (n : Nat) (s : ObjectState), s.emitremoved = true →
      emit_calls env n s = (s, []) := by
  intro n
  induction n with
  | zero => intro s _; rfl
  | succ n ih =>
    intro s h
    simp [emit_calls, emit_object_added, h, ih s h]

/-- With the flag clear, a block of `n + 1` `emit_object_added()` calls emits
exactly one added notification (on the first call) and sets the flag. -/
theorem emit_calls_first (env : Env) (n : Nat) (s : ObjectState)
    (h : s.emitremoved = false) :
    emit_calls env (n + 1) s =
      (⟨s.bus, s.path, true, s.act⟩, [Event.objAdded s.bus s.path env.addedOk]) := by
  have hdone := emit_calls_done env n (⟨s.bus, s.path, true, s.act⟩ : ObjectState) rfl
  simp [emit_calls, emit_object_added, h, hdone]

/-- Successful construction with `EMIT_OBJECT_ADDED`: the modules are built
first, then one whole-object added emission; the flag ends up set. -/
theorem object_construct_add (env : Env) (bus : Nat) (path : String)
    (mods : List Nat) (h : ∀ i ∈ mods, env.ctorFails i = false) :
    object_construct env mods bus path Action.EMIT_OBJECT_ADDED =
      (some ⟨some bus, path, true, Action.EMIT_OBJECT_ADDED⟩,
        mods.map (fun i => Event.construct i bus path)
          ++ [Event.objAdded (some bus) path env.addedOk]) := by
  simp [object_construct, compose_construct_ok env bus path mods h,
    check_action, emit_object_added]

/-- Successful construction with `EMIT_INTERFACE_ADDED`: the modules are
built first, then each `emit_added()` in list order; the flag stays clear. -/
theorem object_construct_iface (env : Env) (bus : Nat) (path : String)
    (mods : List Nat) (h : ∀ i ∈ mods, env.ctorFails i = false) :
    object_construct env mods bus path Action.EMIT_INTERFACE_ADDED =
      (some ⟨some bus, path, false, Action.EMIT_INTERFACE_ADDED⟩,
        mods.map (fun i => Event.construct i bus path)
          ++ mods.map Event.ifaceAdded) := by
  simp [object_construct, compose_construct_ok env bus path mods h, check_action]

/-- Successful construction with `DEFER_EMIT`: the modules are built and
nothing is emitted; the flag stays clear. -/
theorem object_construct_defer_act (env : Env) (bus : Nat) (path : String)
    (mods : List Nat) (h : ∀ i ∈ mods, env.ctorFails i = false) :
    object_construct env mods bus path Action.DEFER_EMIT =
      (some ⟨some bus, path, false, Action.DEFER_EMIT⟩,
        mods.map (fun i => Event.construct i bus path)) := by
  simp [object_construct, compose_construct_ok env bus path mods h, check_action]

@[simp]
theorem count_construct_objAdded (bus : Nat) (path : String) (mods : List Nat) :
    countObjAdded (mods.map (fun i => Event.construct i bus path)) = 0 :=
  countP_map_eq_zero _ _ (fun _ => rfl) _

@[simp]
theorem count_construct_objRemoved (bus : Nat) (path : String) (mods : List Nat) :
    countObjRemoved (mods.map (fun i => Event.construct i bus path)) = 0 :=
  countP_map_eq_zero _ _ (fun _ => rfl) _

@[simp]
theorem count_construct_iface (bus : Nat) (path : String) (mods : List Nat) :
    countIfaceAdded (mods.map (fun i => Event.construct i bus path)) = 0 :=
  countP_map_eq_zero _ _ (fun _ => rfl) _

@[simp]
theorem count_construct_notice (bus : Nat) (path : String) (mods : List Nat) :
    countNotice (mods.map (fun i => Event.construct i bus path)) = 0 :=
  countP_map_eq_zero _ _ (fun _ => rfl) _

@[simp]
theorem count_destruct_objAdded (mods : List Nat) :
    countObjAdded (compose_destruct mods) = 0 :=
  countP_map_eq_zero _ _ (fun _ => rfl) _

@[simp]
theorem count_destruct_objRemoved (mods : List Nat) :
    countObjRemoved (compose_destruct mods) = 0 :=
  countP_map_eq_zero _ _ (fun _ => rfl) _

@[simp]
theorem count_destruct_iface (mods : List Nat) :
    countIfaceAdded (compose_destruct mods) = 0 :=
  countP_map_eq_zero _ _ (fun _ => rfl) _

@[simp]
theorem count_destructrev_objAdded (mods : List Nat) :
    countObjAdded (mods.map Event.destruct) = 0 :=
  countP_map_eq_zero _ _ (fun _ => rfl) _

@[simp]
theorem count_destructrev_notice (mods : List Nat) :
    countNotice (mods.map Event.destruct) = 0 :=
  countP_map_eq_zero _ _ (fun _ => rfl) _

@[simp]
theorem count_ifacemap_objAdded (mods : List Nat) :
    countObjAdded (mods.map Event.ifaceAdded) = 0 :=
  countP_map_eq_zero _ _ (fun _ => rfl) _

@[simp]
theorem count_ifacemap_objRemoved (mods : List Nat) :
    countObjRemoved (mods.map Event.ifaceAdded) = 0 :=
  countP_map_eq_zero _ _ (fun _ => rfl) _

@[simp]
theorem count_ifacemap_iface (mods : List Nat) :
    countIfaceAdded (mods.map Event.ifaceAdded) = mods.length := by
  induction mods with
  | nil => rfl
  | cons i rest ih =>
    unfold countIfaceAdded at ih ⊢
    rw [List.map_cons, List.countP_cons, ih]
    rfl

@[simp]
theorem countObjAdded_append (l m : List Event) :
    countObjAdded (l ++ m) = countObjAdded l + countObjAdded m :=
  List.countP_append ..

@[simp]
theorem countObjRemoved_append (l m : List Event) :
    countObjRemoved (l ++ m) = countObjRemoved l + countObjRemoved m :=
  List.countP_append ..

@[simp]
theorem countIfaceAdded_append (l m : List Event) :
    countIfaceAdded (l ++ m) = countIfaceAdded l + countIfaceAdded m :=
  List.countP_append ..

@[simp]
theorem countNotice_append (l m : List Event) :
    countNotice (l ++ m) = countNotice l + countNotice m :=
  List.countP_append ..

theorem countObjAdded_single (b : Option Nat) (p : String) (ok : Bool) :
    countObjAdded [Event.objAdded b p ok] = 1 := rfl

theorem countObjRemoved_single (b : Option Nat) (p : String) (ok : Bool) :
    countObjRemoved [Event.objRemoved b p ok] = 1 := rfl

/-! ### The claims -/

/-- Claim C7: the composed aggregate constructs `M1, ..., Mn` in exactly
list order, passing the same `(bus, path)` pair to every module, and the
empty composition accepts the same arguments and performs no action. -/
theorem c7_compose_order (env : Env) (bus : Nat) (path : String)
    (mods : List Nat) (h : ∀ i ∈ mods, env.ctorFails i = false) :
    compose_construct env bus path mods =
      (mods.map (fun i => Event.construct i bus path), true)
    ∧ compose_construct env bus path [] = ([], true) :=
  ⟨compose_construct_ok env bus path mods h, rfl⟩

/-- Witness for C7 at `mods = [1, 2]`. -/
theorem c7_compose_order_witness :
    (∀ i ∈ [1, 2], envOK.ctorFails i = false)
    ∧ (compose_construct envOK 7 "/a" [1, 2] =
        ([1, 2].map (fun i => Event.construct i 7 "/a"), true)
      ∧ compose_construct envOK 7 "/a" [] = ([], true)) :=
  ⟨by decide, c7_compose_order envOK 7 "/a" [1, 2] (by decide)⟩

/-- Claim C2: constructing with `EMIT_OBJECT_ADDED` produces exactly one
object-added notification and zero interface-added notifications, and
destructing the object then produces exactly one object-removed
notification. -/
theorem c2_emit_object_added_lifecycle (env : Env) (bus : Nat) (path : String)
    (mods : List Nat) (h : ∀ i ∈ mods, env.ctorFails i = false) :
    ∃ s tr,
      object_construct env mods bus path Action.EMIT_OBJECT_ADDED = (some s, tr)
      ∧ countObjAdded tr = 1
      ∧ countIfaceAdded tr = 0
      ∧ countObjRemoved (object_destruct env mods s) = 1 := by
  refine ⟨_, _, object_construct_add env bus path mods h, ?_, ?_, ?_⟩
  · rw [countObjAdded_append, count_construct_objAdded, countObjAdded_single]
  · rw [countIfaceAdded_append, count_construct_iface]
    rfl
  · show countObjRemoved
      ([Event.objRemoved (some bus) path env.removedOk] ++ compose_destruct mods) = 1
    rw [countObjRemoved_append, count_destruct_objRemoved, countObjRemoved_single]

/-- Witness for C2 at `mods = [1, 2]`. -/
theorem c2_emit_object_added_lifecycle_witness :
    (∀ i ∈ [1, 2], envOK.ctorFails i = false)
    ∧ (∃ s tr,
        object_construct envOK [1, 2] 7 "/a" Action.EMIT_OBJECT_ADDED = (some s, tr)
        ∧ countObjAdded tr = 1
        ∧ countIfaceAdded tr = 0
        ∧ countObjRemoved (object_destruct envOK [1, 2] s) = 1) :=
  ⟨by decide, c2_emit_object_added_lifecycle envOK 7 "/a" [1, 2] (by decide)⟩

/-- Claim C3: constructing with `EMIT_INTERFACE_ADDED` produces exactly `N`
interface-added notifications, one per module in list order, and zero
object-added notifications; the removal flag stays clear, so the destructor
produces zero object-removed notifications. -/
theorem c3_emit_interface_added_lifecycle (env : Env) (bus : Nat) (path : String)
    (mods : List Nat) (h : ∀ i ∈ mods, env.ctorFails i = false) :
    ∃ s tr,
      object_construct env mods bus path Action.EMIT_INTERFACE_ADDED = (some s, tr)
      ∧ tr.filter (fun e => e.isIfaceAdded) = mods.map Event.ifaceAdded
      ∧ countIfaceAdded tr = mods.length
      ∧ countObjAdded tr = 0
      ∧ s.emitremoved = false
      ∧ countObjRemoved (object_destruct env mods s) = 0 := by
  refine ⟨_, _, object_construct_iface env bus path mods h, ?_, ?_, ?_, rfl, ?_⟩
  · rw [List.filter_append]
    have h1 : (mods.map (fun i => Event.construct i bus path)).filter
        (fun e => e.isIfaceAdded) = [] := by
      rw [List.filter_eq_nil_iff]
      intro e he
      rcases List.mem_map.mp he with ⟨i, _, rfl⟩
      simp [Event.isIfaceAdded]
    have h2 : (mods.map Event.ifaceAdded).filter (fun e => e.isIfaceAdded) =
        mods.map Event.ifaceAdded := by
      rw [List.filter_eq_self]
      intro e he
      rcases List.mem_map.mp he with ⟨i, _, rfl⟩
      rfl
    rw [h1, h2, List.nil_append]
  · rw [countIfaceAdded_append, count_construct_iface, count_ifacemap_iface,
      Nat.zero_add]
  · rw [countObjAdded_append, count_construct_objAdded, count_ifacemap_objAdded]
  · show countObjRemoved ([] ++ compose_destruct mods) = 0
    rw [countObjRemoved_append, count_destruct_objRemoved]
    rfl

/-- Witness for C3 at `mods = [1, 2]`. -/
theorem c3_emit_interface_added_lifecycle_witness :
    (∀ i ∈ [1, 2], envOK.ctorFails i = false)
    ∧ (∃ s tr,
        object_construct envOK [1, 2] 7 "/a" Action.EMIT_INTERFACE_ADDED = (some s, tr)
        ∧ tr.filter (fun e => e.isIfaceAdded) = [1, 2].map Event.ifaceAdded
        ∧ countIfaceAdded tr = [1, 2].length
        ∧ countObjAdded tr = 0
        ∧ s.emitremoved = false
        ∧ countObjRemoved (object_destruct envOK [1, 2] s) = 0) :=
  ⟨by decide, c3_emit_interface_added_lifecycle envOK 7 "/a" [1, 2] (by decide)⟩

/-- Claim C4: constructing with `DEFER_EMIT` produces zero notifications; a
subsequent explicit `emit_object_added()` produces exactly one object-added
notification; any second or later call produces nothing (the call is
idempotent once the flag is set). -/
theorem c4_defer_then_explicit (env : Env) (bus : Nat) (path : String)
    (mods : List Nat) (h : ∀ i ∈ mods, env.ctorFails i = false) :
    ∃ s tr,
      object_construct env mods bus path Action.DEFER_EMIT = (some s, tr)
      ∧ countNotice tr = 0
      ∧ (emit_object_added env s).2 = [Event.objAdded (some bus) path env.addedOk]
      ∧ countObjAdded (emit_object_added env s).2 = 1
      ∧ ∀ n, emit_calls env n (emit_object_added env s).1 =
          ((emit_object_added env s).1, []) := by
  refine ⟨_, _, object_construct_defer_act env bus path mods h, ?_, rfl, rfl, ?_⟩
  · simp
  · intro n
    exact emit_calls_done env n _ rfl

/-- Witness for C4 at `mods = [1, 2]`. -/
theorem c4_defer_then_explicit_witness :
    (∀ i ∈ [1, 2], envOK.ctorFails i = false)
    ∧ (∃ s tr,
        object_construct envOK [1, 2] 7 "/a" Action.DEFER_EMIT = (some s, tr)
        ∧ countNotice tr = 0
        ∧ (emit_object_added envOK s).2 = [Event.objAdded (some 7) "/a" envOK.addedOk]
        ∧ countObjAdded (emit_object_added envOK s).2 = 1
        ∧ ∀ n, emit_calls envOK n (emit_object_added envOK s).1 =
            ((emit_object_added envOK s).1, [])) :=
  ⟨by decide, c4_defer_then_explicit envOK 7 "/a" [1, 2] (by decide)⟩

/-- Claim C5: if the `k`-th module constructor fails, the already-constructed
modules are destructed in reverse order, the failure propagates to the
creator (no object is produced), and no notification of any kind is
emitted. -/
theorem c5_ctor_failure_rollback (env : Env) (bus : Nat) (path : String)
    (pre post : List Nat) (k : Nat) (act : Action)
    (hpre : ∀ i ∈ pre, env.ctorFails i = false) (hk : env.ctorFails k = true) :
    object_construct env (pre ++ k :: post) bus path act =
      (none, pre.map (fun i => Event.construct i bus path)
        ++ pre.reverse.map Event.destruct)
    ∧ countNotice (pre.map (fun i => Event.construct i bus path)
        ++ pre.reverse.map Event.destruct) = 0 := by
  constructor
  · unfold object_construct
    rw [compose_construct_fail env bus path k hk post pre hpre]
  · rw [countNotice_append, count_construct_notice, count_destructrev_notice]

/-- Witness for C5: modules `[1, 2]` succeed, module `3` fails, `[4]` never
starts. -/
theorem c5_ctor_failure_rollback_witness :
    ((∀ i ∈ [1, 2], (envCtorFailAt 3).ctorFails i = false)
      ∧ (envCtorFailAt 3).ctorFails 3 = true)
    ∧ (object_construct (envCtorFailAt 3) ([1, 2] ++ 3 :: [4]) 7 "/a"
          Action.EMIT_OBJECT_ADDED =
        (none, [1, 2].map (fun i => Event.construct i 7 "/a")
          ++ [1, 2].reverse.map Event.destruct)
      ∧ countNotice ([1, 2].map (fun i => Event.construct i 7 "/a")
          ++ [1, 2].reverse.map Event.destruct) = 0) :=
  ⟨⟨by decide, by decide⟩,
    c5_ctor_failure_rollback (envCtorFailAt 3) 7 "/a" [1, 2] [4] 3
      Action.EMIT_OBJECT_ADDED (by decide) (by decide)⟩

/-- Claim C8: construction fully builds the aggregate before the emission
action is evaluated — the construction trace is the module constructions
followed only by notification events — and destruction is the reverse: any
whole-object removed emission precedes every module teardown event. -/
theorem c8_construct_before_emit (env : Env) (bus : Nat) (path : String)
    (mods : List Nat) (act : Action) (h : ∀ i ∈ mods, env.ctorFails i = false) :
    ∃ s tr2,
      object_construct env mods bus path act =
        (some s, mods.map (fun i => Event.construct i bus path) ++ tr2)
      ∧ (∀ e ∈ tr2, e.isNotice = true)
      ∧ ∃ rem, object_destruct env mods s = rem ++ mods.reverse.map Event.destruct
          ∧ ∀ e ∈ rem, e.isObjRemoved = true := by
  cases act with
  | EMIT_OBJECT_ADDED =>
    refine ⟨_, _, object_construct_add env bus path mods h, ?_, ?_⟩
    · intro e he
      rw [List.mem_singleton] at he
      subst he
      rfl
    · refine ⟨[Event.objRemoved (some bus) path env.removedOk], rfl, ?_⟩
      intro e he
      rw [List.mem_singleton] at he
      subst he
      rfl
  | EMIT_INTERFACE_ADDED =>
    refine ⟨_, _, object_construct_iface env bus path mods h, ?_, ?_⟩
    · intro e he
      rcases List.mem_map.mp he with ⟨i, _, rfl⟩
      rfl
    · refine ⟨[], rfl, ?_⟩
      intro e he
      cases he
  | DEFER_EMIT =>
    refine ⟨⟨some bus, path, false, Action.DEFER_EMIT⟩, [], ?_, ?_, ?_⟩
    · rw [List.append_nil]
      exact object_construct_defer_act env bus path mods h
    · intro e he
      cases he
    · refine ⟨[], rfl, ?_⟩
      intro e he
      cases he

/-- Witness for C8 at `mods = [1, 2]`, action `EMIT_OBJECT_ADDED`. -/
theorem c8_construct_before_emit_witness :
    (∀ i ∈ [1, 2], envOK.ctorFails i = false)
    ∧ (∃ s tr2,
        object_construct envOK [1, 2] 7 "/a" Action.EMIT_OBJECT_ADDED =
          (some s, [1, 2].map (fun i => Event.construct i 7 "/a") ++ tr2)
        ∧ (∀ e ∈ tr2, e.isNotice = true)
        ∧ ∃ rem, object_destruct envOK [1, 2] s = rem ++ [1, 2].reverse.map Event.destruct
            ∧ ∀ e ∈ rem, e.isObjRemoved = true) :=
  ⟨by decide,
    c8_construct_before_emit envOK 7 "/a" [1, 2] Action.EMIT_OBJECT_ADDED (by decide)⟩

/-- Claim C9 (code bug): copy construction, copy assignment and default
construction are indeed unavailable and move construction is available, but
move assignment — although declared `= default` (line 88) and documented as
allowed by the class comment ("Allowed: Move operations", lines 80-81) — is
defined as deleted because of the const non-class member
`const action __action` (line 167, C++ [class.copy.assign] p7.2), so the
composite object is not move-assignable and the claim's "move assignment is
available to callers" part fails on the code as written. -/
theorem c9_moveassign_deleted :
    special_member_available SpecialMember.defaultCtor = false
    ∧ special_member_available SpecialMember.copyCtor = false
    ∧ special_member_available SpecialMember.copyAssign = false
    ∧ special_member_available SpecialMember.moveCtor = true
    ∧ special_member_defaulted SpecialMember.moveAssign = true
    ∧ has_const_nonclass_member = true
    ∧ special_member_available SpecialMember.moveAssign = false := by
  decide

/-- Claim C10: the defaulted move constructor copies the `emitremoved` flag
and leaves it set in the moved-from object, so destroying both the moved-to
and the moved-from instance attempts an object-removed emission for each —
two emissions for one announced object. -/
theorem c10_move_duplicates_removed (env : Env) (mods : List Nat)
    (s : ObjectState) (h : s.emitremoved = true) :
    (object_move_construct s).1.emitremoved = true
    ∧ (object_move_construct s).2.emitremoved = true
    ∧ countObjRemoved (object_destruct env mods (object_move_construct s).1) = 1
    ∧ countObjRemoved (object_destruct env mods (object_move_construct s).2) = 1 := by
  refine ⟨h, h, ?_, ?_⟩
  · show countObjRemoved
      ((if s.emitremoved then [Event.objRemoved s.bus s.path env.removedOk] else [])
        ++ compose_destruct mods) = 1
    rw [h, if_pos rfl, countObjRemoved_append, count_destruct_objRemoved,
      countObjRemoved_single]
  · show countObjRemoved
      ((if s.emitremoved then [Event.objRemoved none "" env.removedOk] else [])
        ++ compose_destruct mods) = 1
    rw [h, if_pos rfl, countObjRemoved_append, count_destruct_objRemoved,
      countObjRemoved_single]

/-- Witness for C10 at a concrete announced object. -/
theorem c10_move_duplicates_removed_witness :
    ((⟨some 7, "/a", true, Action.EMIT_OBJECT_ADDED⟩ : ObjectState).emitremoved = true)
    ∧ ((object_move_construct ⟨some 7, "/a", true, Action.EMIT_OBJECT_ADDED⟩).1.emitremoved = true
      ∧ (object_move_construct ⟨some 7, "/a", true, Action.EMIT_OBJECT_ADDED⟩).2.emitremoved = true
      ∧ countObjRemoved (object_destruct envOK [1]
          (object_move_construct ⟨some 7, "/a", true, Action.EMIT_OBJECT_ADDED⟩).1) = 1
      ∧ countObjRemoved (object_destruct envOK [1]
          (object_move_construct ⟨some 7, "/a", true, Action.EMIT_OBJECT_ADDED⟩).2) = 1) :=
  ⟨rfl, c10_move_duplicates_removed envOK [1]
    ⟨some 7, "/a", true, Action.EMIT_OBJECT_ADDED⟩ rfl⟩

theorem countObjAdded_nil : countObjAdded [] = 0 := rfl

theorem countObjRemoved_nil : countObjRemoved [] = 0 := rfl

theorem countObjRemoved_single_added (b : Option Nat) (p : String) (ok : Bool) :
    countObjRemoved [Event.objAdded b p ok] = 0 := rfl

theorem countObjAdded_single_removed (b : Option Nat) (p : String) (ok : Bool) :
    countObjAdded [Event.objRemoved b p ok] = 0 := rfl

/-- Destructing an announced object: one removed emission, then the
module teardown. -/
theorem object_destruct_true (env : Env) (mods : List Nat) (s : ObjectState)
    (h : s.emitremoved = true) :
    object_destruct env mods s =
      [Event.objRemoved s.bus s.path env.removedOk] ++ compose_destruct mods := by
  unfold object_destruct
  rw [h, if_pos rfl]

/-- Destructing a never-announced object: only the module teardown. -/
theorem object_destruct_false (env : Env) (mods : List Nat) (s : ObjectState)
    (h : s.emitremoved = false) :
    object_destruct env mods s = compose_destruct mods := by
  unfold object_destruct
  rw [h]
  simp

theorem counts_destruct_true (env : Env) (mods : List Nat) (s : ObjectState)
    (h : s.emitremoved = true) :
    countObjRemoved (object_destruct env mods s) = 1
    ∧ countObjAdded (object_destruct env mods s) = 0 := by
  rw [object_destruct_true env mods s h]
  constructor
  · rw [countObjRemoved_append, count_destruct_objRemoved, countObjRemoved_single]
  · rw [countObjAdded_append, count_destruct_objAdded, countObjAdded_single_removed]

theorem counts_destruct_false (env : Env) (mods : List Nat) (s : ObjectState)
    (h : s.emitremoved = false) :
    countObjRemoved (object_destruct env mods s) = 0
    ∧ countObjAdded (object_destruct env mods s) = 0 := by
  rw [object_destruct_false env mods s h]
  exact ⟨count_destruct_objRemoved mods, count_destruct_objAdded mods⟩

/-- Once the flag is set, the rest of the lifecycle (any number of further
calls, then the destructor) makes exactly one removed attempt and no added
attempt. -/
theorem post_counts_true (env : Env) (mods : List Nat) (s1 : ObjectState)
    (calls : Nat) (h : s1.emitremoved = true) :
    countObjRemoved (emit_calls env calls s1).2
        + countObjRemoved (object_destruct env mods (emit_calls env calls s1).1) = 1
    ∧ countObjAdded (emit_calls env calls s1).2
        + countObjAdded (object_destruct env mods (emit_calls env calls s1).1) = 0 := by
  obtain ⟨h1, h2⟩ := counts_destruct_true env mods s1 h
  rw [emit_calls_done env calls s1 h]
  show countObjRemoved [] + countObjRemoved (object_destruct env mods s1) = 1
    ∧ countObjAdded [] + countObjAdded (object_destruct env mods s1) = 0
  rw [h1, h2]
  exact ⟨rfl, rfl⟩

/-- With the flag clear, the rest of the lifecycle makes equal numbers of
added and removed attempts — zero of each when no call is made, one of each
otherwise — and at most one. -/
theorem post_counts_false (env : Env) (mods : List Nat) (s1 : ObjectState)
    (calls : Nat) (h : s1.emitremoved = false) :
    countObjRemoved (emit_calls env calls s1).2
        + countObjRemoved (object_destruct env mods (emit_calls env calls s1).1)
      = countObjAdded (emit_calls env calls s1).2
        + countObjAdded (object_destruct env mods (emit_calls env calls s1).1)
    ∧ countObjAdded (emit_calls env calls s1).2
        + countObjAdded (object_destruct env mods (emit_calls env calls s1).1) ≤ 1 := by
  cases calls with
  | zero =>
    obtain ⟨h1, h2⟩ := counts_destruct_false env mods s1 h
    show countObjRemoved [] + countObjRemoved (object_destruct env mods s1)
        = countObjAdded [] + countObjAdded (object_destruct env mods s1)
      ∧ countObjAdded [] + countObjAdded (object_destruct env mods s1) ≤ 1
    rw [h1, h2, countObjAdded_nil, countObjRemoved_nil]
    exact ⟨rfl, by omega⟩
  | succ n =>
    obtain ⟨h1, h2⟩ :=
      counts_destruct_true env mods ⟨s1.bus, s1.path, true, s1.act⟩ rfl
    rw [emit_calls_first env n s1 h]
    show countObjRemoved [Event.objAdded s1.bus s1.path env.addedOk]
          + countObjRemoved (object_destruct env mods ⟨s1.bus, s1.path, true, s1.act⟩)
        = countObjAdded [Event.objAdded s1.bus s1.path env.addedOk]
          + countObjAdded (object_destruct env mods ⟨s1.bus, s1.path, true, s1.act⟩)
      ∧ countObjAdded [Event.objAdded s1.bus s1.path env.addedOk]
          + countObjAdded (object_destruct env mods ⟨s1.bus, s1.path, true, s1.act⟩) ≤ 1
    rw [h1, h2, countObjAdded_single, countObjRemoved_single_added]
    exact ⟨rfl, by omega⟩

/-- Lifecycle trace when the aggregate construction fails: just the rollback
trace. -/
theorem object_lifecycle_fail (env : Env) (mods : List Nat) (bus : Nat)
    (path : String) (act : Action) (calls : Nat) (tr : List Event)
    (hcc : compose_construct env bus path mods = (tr, false)) :
    object_lifecycle env mods bus path act calls = tr := by
  simp only [object_lifecycle, object_construct, hcc]

/-- Lifecycle trace when the aggregate construction succeeds: compose trace,
check_action trace, explicit-call trace, destructor trace, in that order. -/
theorem object_lifecycle_split (env : Env) (mods : List Nat) (bus : Nat)
    (path : String) (act : Action) (calls : Nat) (tr tr1 tr2 : List Event)
    (s0 s1 : ObjectState)
    (hcc : compose_construct env bus path mods = (tr, true))
    (hca : check_action env mods ⟨some bus, path, false, act⟩ = (s0, tr1))
    (hec : emit_calls env calls s0 = (s1, tr2)) :
    object_lifecycle env mods bus path act calls =
      tr ++ tr1 ++ tr2 ++ object_destruct env mods s1 := by
  simp only [object_lifecycle, object_construct, hcc, hca, hec]

/-- Claim C1 (amended): over a full lifecycle (construct with any action,
any number of explicit `emit_object_added()` calls, destruct), an
object-removed emission is attempted iff an object-added emission was
previously attempted — whether or not the bus reported success for it — and
each is attempted at most once. -/
theorem c1_removed_iff_added_attempted (env : Env) (mods : List Nat)
    (bus : Nat) (path : String) (act : Action) (calls : Nat) :
    countObjRemoved (object_lifecycle env mods bus path act calls)
      = countObjAdded (object_lifecycle env mods bus path act calls)
    ∧ countObjAdded (object_lifecycle env mods bus path act calls) ≤ 1 := by
  rcases hcc : compose_construct env bus path mods with ⟨tr, b⟩
  have hnot : countNotice tr = 0 := by
    have h0 := compose_construct_countNotice env bus path mods
    rw [hcc] at h0
    exact h0
  have hadd : countObjAdded tr = 0 :=
    Nat.le_zero.mp (Nat.le_trans
      (countP_le_countNotice _ isObjAdded_notice tr) (Nat.le_of_eq hnot))
  have hrem : countObjRemoved tr = 0 :=
    Nat.le_zero.mp (Nat.le_trans
      (countP_le_countNotice _ isObjRemoved_notice tr) (Nat.le_of_eq hnot))
  cases b with
  | false =>
    rw [object_lifecycle_fail env mods bus path act calls tr hcc, hadd, hrem]
    exact ⟨rfl, by omega⟩
  | true =>
    cases act with
    | EMIT_OBJECT_ADDED =>
      have hca : check_action env mods ⟨some bus, path, false, Action.EMIT_OBJECT_ADDED⟩ =
          (⟨some bus, path, true, Action.EMIT_OBJECT_ADDED⟩,
            [Event.objAdded (some bus) path env.addedOk]) := rfl
      have hec := emit_calls_done env calls
        (⟨some bus, path, true, Action.EMIT_OBJECT_ADDED⟩ : ObjectState) rfl
      rw [object_lifecycle_split env mods bus path Action.EMIT_OBJECT_ADDED calls
        tr [Event.objAdded (some bus) path env.addedOk] []
        ⟨some bus, path, true, Action.EMIT_OBJECT_ADDED⟩
        ⟨some bus, path, true, Action.EMIT_OBJECT_ADDED⟩ hcc hca hec]
      obtain ⟨hd1, hd2⟩ := counts_destruct_true env mods
        (⟨some bus, path, true, Action.EMIT_OBJECT_ADDED⟩ : ObjectState) rfl
      simp only [countObjAdded_append, countObjRemoved_append, hadd, hrem, hd1, hd2,
        countObjAdded_single, countObjRemoved_single_added, countObjAdded_nil,
        countObjRemoved_nil]
      simp
    | EMIT_INTERFACE_ADDED =>
      have hca : check_action env mods
          ⟨some bus, path, false, Action.EMIT_INTERFACE_ADDED⟩ =
          (⟨some bus, path, false, Action.EMIT_INTERFACE_ADDED⟩,
            mods.map Event.ifaceAdded) := rfl
      rcases hec : emit_calls env calls
          (⟨some bus, path, false, Action.EMIT_INTERFACE_ADDED⟩ : ObjectState)
        with ⟨s1, tr2⟩
      have hp := post_counts_false env mods
        (⟨some bus, path, false, Action.EMIT_INTERFACE_ADDED⟩ : ObjectState) calls rfl
      rw [hec] at hp
      rw [object_lifecycle_split env mods bus path Action.EMIT_INTERFACE_ADDED calls
        tr (mods.map Event.ifaceAdded) tr2
        ⟨some bus, path, false, Action.EMIT_INTERFACE_ADDED⟩ s1 hcc hca hec]
      obtain ⟨hp1, hp2⟩ := hp
      simp only [countObjAdded_append, countObjRemoved_append, hadd, hrem,
        count_ifacemap_objAdded, count_ifacemap_objRemoved] at hp1 hp2 ⊢
      omega
    | DEFER_EMIT =>
      have hca : check_action env mods ⟨some bus, path, false, Action.DEFER_EMIT⟩ =
          (⟨some bus, path, false, Action.DEFER_EMIT⟩, []) := rfl
      rcases hec : emit_calls env calls
          (⟨some bus, path, false, Action.DEFER_EMIT⟩ : ObjectState) with ⟨s1, tr2⟩
      have hp := post_counts_false env mods
        (⟨some bus, path, false, Action.DEFER_EMIT⟩ : ObjectState) calls rfl
      rw [hec] at hp
      rw [object_lifecycle_split env mods bus path Action.DEFER_EMIT calls
        tr [] tr2 ⟨some bus, path, false, Action.DEFER_EMIT⟩ s1 hcc hca hec]
      obtain ⟨hp1, hp2⟩ := hp
      simp only [countObjAdded_append, countObjRemoved_append, hadd, hrem,
        countObjAdded_nil, countObjRemoved_nil] at hp1 hp2 ⊢
      omega

/-- Counterexample to claim C1 as stated: with a bus that rejects the added
emission but accepts the removed one, the lifecycle trace contains no
successful object-added emission, yet the destructor emits an object-removed
notification (successfully) — because `object.hpp` discards the status of
`sd_bus_emit_object_added` and sets the flag anyway. -/
theorem c1_counterexample :
    object_lifecycle envAddFails [1] 7 "/a" Action.EMIT_OBJECT_ADDED 0 =
      [Event.construct 1 7 "/a", Event.objAdded (some 7) "/a" false,
        Event.objRemoved (some 7) "/a" true, Event.destruct 1]
    ∧ countOkObjAdded (object_lifecycle envAddFails [1] 7 "/a"
        Action.EMIT_OBJECT_ADDED 0) = 0
    ∧ countObjRemoved (object_lifecycle envAddFails [1] 7 "/a"
        Action.EMIT_OBJECT_ADDED 0) = 1 := by
  decide

/-- Claim C6 (amended): the function `emit_object_added()` discards the bus-layer status:
when the flag is clear it makes the emission attempt — successful or not —
and sets `emitremoved` unconditionally, so even after a failed added
emission the object counts as announced and its destructor attempts an
object-removed emission. -/
theorem c6_amended_flag_set_unconditionally (env : Env) (mods : List Nat)
    (s : ObjectState) (h : s.emitremoved = false) :
    emit_object_added env s =
      (⟨s.bus, s.path, true, s.act⟩, [Event.objAdded s.bus s.path env.addedOk])
    ∧ countObjRemoved (object_destruct env mods (emit_object_added env s).1) = 1 := by
  have he : emit_object_added env s =
      (⟨s.bus, s.path, true, s.act⟩, [Event.objAdded s.bus s.path env.addedOk]) := by
    unfold emit_object_added
    rw [h, if_neg (by simp)]
  refine ⟨he, ?_⟩
  rw [he]
  show countObjRemoved
      ([Event.objRemoved s.bus s.path env.removedOk] ++ compose_destruct mods) = 1
  rw [countObjRemoved_append, count_destruct_objRemoved, countObjRemoved_single]

/-- Witness for the amended C6 at a concrete deferred object on a failing
bus. -/
theorem c6_amended_flag_set_unconditionally_witness :
    ((⟨some 7, "/a", false, Action.DEFER_EMIT⟩ : ObjectState).emitremoved = false)
    ∧ (emit_object_added envAddFails ⟨some 7, "/a", false, Action.DEFER_EMIT⟩ =
        (⟨some 7, "/a", true, Action.DEFER_EMIT⟩,
          [Event.objAdded (some 7) "/a" envAddFails.addedOk])
      ∧ countObjRemoved (object_destruct envAddFails [1]
          (emit_object_added envAddFails ⟨some 7, "/a", false, Action.DEFER_EMIT⟩).1) = 1) :=
  ⟨rfl, c6_amended_flag_set_unconditionally envAddFails [1]
    ⟨some 7, "/a", false, Action.DEFER_EMIT⟩ rfl⟩

/-- Counterexample to claim C6 as stated: on a bus whose added emission
fails, `emit_object_added` still sets `removalPending` (the claim says the
flag is updated only after a successful emission), no failure is reported to
the caller, and the destructor then emits an object-removed notification. -/
theorem c6_counterexample :
    envAddFails.addedOk = false
    ∧ (emit_object_added envAddFails
        ⟨some 7, "/a", false, Action.DEFER_EMIT⟩).1.emitremoved = true
    ∧ countOkObjAdded (emit_object_added envAddFails
        ⟨some 7, "/a", false, Action.DEFER_EMIT⟩).2 = 0
    ∧ countObjRemoved (object_destruct envAddFails []
        (emit_object_added envAddFails
          ⟨some 7, "/a", false, Action.DEFER_EMIT⟩).1) = 1 := by
  decide

example : compose_construct envOK 7 "/a" [1, 2] =
    ([Event.construct 1 7 "/a", Event.construct 2 7 "/a"], true) := by decide

example : compose_construct (envCtorFailAt 3) 7 "/a" [1, 2, 3, 4] =
    ([Event.construct 1 7 "/a", Event.construct 2 7 "/a",
      Event.destruct 2, Event.destruct 1], false) := by decide

example :
    object_lifecycle envOK [1, 2] 7 "/a" Action.EMIT_OBJECT_ADDED 0 =
    [Event.construct 1 7 "/a", Event.construct 2 7 "/a",
     Event.objAdded (some 7) "/a" true,
     Event.objRemoved (some 7) "/a" true,
     Event.destruct 2, Event.destruct 1] := by decide

end SdbusObj
